import Mathlib

/-!
Shallow embedding of the frame-stream decoder (src/decoder.rs).

The underlying byte source (`std::io::Read`) is modelled as a `List Nat` of
bytes; every byte observed from the source is reduced `% 256`, matching `u8`.
Each reading operation is state-passing: it takes the remaining source and
returns an `Except` of the parsed value paired with the rest of the source.
On the error path the partially consumed source is not tracked (the Rust
caller may not meaningfully continue a failed stream, and no stated property
observes the source position after an error).
-/

/-- Errors surfaced by the decoder, mirroring the `std::io::ErrorKind`
values used in src/decoder.rs plus the end-of-input failure of the
underlying reader. `usizeUnderflow` models the overflow panic of the
`remaining -= n` usize subtraction in `read_control_frame` (a checked
arithmetic failure in the source, reachable only if the subtrahend
exceeds `remaining`). -/
inductive DecError : Type where
  | eof : DecError
  | invalidData : String → DecError
  | invalidInput : String → DecError
  | other : String → DecError
  | usizeUnderflow : DecError
deriving DecidableEq, Repr

/-- MAX_CONTROL_FRAME_LENGTH from src/decoder.rs line 8. -/
def MAX_CONTROL_FRAME_LENGTH : Nat := 512

/-- Modelled from the spec: the `constants` module is not under src/. §6
names the control type START; its wire value 2 is pinned by the decoder's
own tests (the start handshake control-type bytes `0,0,0,2` are accepted
by `read_start_frame`). -/
def CONTROL_START : Nat := 2

/-- Modelled from the spec: the `constants` module is not under src/. §6
names the control type STOP; its wire value 3 is pinned by the decoder's
own tests (the `iter` test ends the sequence at control type bytes
`0,0,0,3`). -/
def CONTROL_STOP : Nat := 3

/-- Modelled from the spec: the `constants` module is not under src/. §6
recognizes the single control-field type CONTENT_TYPE; its wire value 1 is
pinned by the decoder's own `read_control_field` test (field type bytes
`0,0,0,1` are accepted). -/
def CONTROL_FIELD_CONTENT_TYPE : Nat := 1

/-- Big-endian u32 read (`byteorder::ReadBytesExt::read_u32::<BigEndian>`):
consume exactly four bytes, failing when fewer are available. -/
def read_u32 (s : List Nat) : Except DecError (Nat × List Nat) :=
  match s with
  | b0 :: b1 :: b2 :: b3 :: rest =>
      .ok ((b0 % 256) * 16777216 + (b1 % 256) * 65536 + (b2 % 256) * 256 + b3 % 256, rest)
  | _ => .error .eof

/-- The `std::io::Read::read_exact` call on a buffer of length `n`:
consume exactly `n` bytes, failing when fewer are available. -/
def read_exact (n : Nat) (s : List Nat) : Except DecError (List Nat × List Nat) :=
  if n ≤ s.length then .ok ((s.take n).map (fun b => b % 256), s.drop n)
  else .error .eof

/-- Lowercase hexadecimal rendering of a number, as Rust's `{:x}` format. -/
def hexString (n : Nat) : String := (Nat.toDigits 16 n).asString

/-- The Unicode replacement character U+FFFD. -/
def replacementChar : Char := Char.ofNat 0xFFFD

/-- Whether a byte is a UTF-8 continuation byte (`0x80..=0xBF`). -/
def isCont (b : Nat) : Bool := 128 ≤ b && b ≤ 191

/-- Admissible second byte of a multi-byte UTF-8 sequence headed by `b0`,
per the standard table (surrogates and over-long forms excluded). -/
def validSecond (b0 b1 : Nat) : Bool :=
  if b0 = 224 then 160 ≤ b1 && b1 ≤ 191
  else if b0 = 237 then 128 ≤ b1 && b1 ≤ 159
  else if b0 = 240 then 144 ≤ b1 && b1 ≤ 191
  else if b0 = 244 then 128 ≤ b1 && b1 ≤ 143
  else isCont b1

/-- UTF-8 decoding with maximal-subpart substitution of U+FFFD, as
`String::from_utf8_lossy`: each maximal valid prefix of a multi-byte
sequence that fails is replaced by one replacement character and decoding
resumes at the offending byte. -/
def utf8Lossy : List Nat → List Char
  | [] => []
  | b0 :: t0 =>
    if b0 < 128 then Char.ofNat b0 :: utf8Lossy t0
    else if 194 ≤ b0 && b0 ≤ 223 then
      match t0 with
      | [] => [replacementChar]
      | b1 :: t1 =>
        if isCont b1 then Char.ofNat ((b0 - 192) * 64 + (b1 - 128)) :: utf8Lossy t1
        else replacementChar :: utf8Lossy (b1 :: t1)
    else if 224 ≤ b0 && b0 ≤ 239 then
      match t0 with
      | [] => [replacementChar]
      | b1 :: t1 =>
        if validSecond b0 b1 then
          match t1 with
          | [] => [replacementChar]
          | b2 :: t2 =>
            if isCont b2 then
              Char.ofNat ((b0 - 224) * 4096 + (b1 - 128) * 64 + (b2 - 128)) :: utf8Lossy t2
            else replacementChar :: utf8Lossy (b2 :: t2)
        else replacementChar :: utf8Lossy (b1 :: t1)
    else if 240 ≤ b0 && b0 ≤ 244 then
      match t0 with
      | [] => [replacementChar]
      | b1 :: t1 =>
        if validSecond b0 b1 then
          match t1 with
          | [] => [replacementChar]
          | b2 :: t2 =>
            if isCont b2 then
              match t2 with
              | [] => [replacementChar]
              | b3 :: t3 =>
                if isCont b3 then
                  Char.ofNat ((b0 - 240) * 262144 + (b1 - 128) * 4096
                      + (b2 - 128) * 64 + (b3 - 128)) :: utf8Lossy t3
                else replacementChar :: utf8Lossy (b3 :: t3)
            else replacementChar :: utf8Lossy (b2 :: t2)
        else replacementChar :: utf8Lossy (b1 :: t1)
    else replacementChar :: utf8Lossy t0

/-- `String::from_utf8_lossy(..).into_owned()`: total UTF-8 decoding of a
byte sequence, never failing. -/
def from_utf8_lossy (bs : List Nat) : String := ⟨utf8Lossy bs⟩

/-- The transient control frame of src/decoder.rs lines 147-152. -/
structure ControlFrame : Type where
  control_type : Nat
  content_types : Option (List String)
deriving DecidableEq, Repr

/-- Decoder::read_control_field (src/decoder.rs lines 75-104): read a
32-bit field type (rejecting anything but CONTROL_FIELD_CONTENT_TYPE), a
32-bit value length (rejected when above `limit`), then exactly that many
value bytes, decoded lossily as UTF-8; returns the string and the total
bytes consumed, `8 + field_len`. The source's `dbg!` call has no effect on
the result and is not modelled. -/
def read_control_field (limit : Nat) (s : List Nat) :
    Except DecError ((String × Nat) × List Nat) :=
  match read_u32 s with
  | .error e => .error e
  | .ok (field_type, s1) =>
    if field_type ≠ CONTROL_FIELD_CONTENT_TYPE then
      .error (.invalidInput
        ("expected control field content type, got " ++ hexString field_type))
    else
      match read_u32 s1 with
      | .error e => .error e
      | .ok (field_len, s2) =>
        if field_len > limit then
          .error (.invalidInput
            ("field contents too large (len=" ++ toString field_len
              ++ " limit=" ++ toString limit ++ ")"))
        else
          match read_exact field_len s2 with
          | .error e => .error e
          | .ok (buf, s3) => .ok ((from_utf8_lossy buf, 8 + field_len), s3)

/-- The field-reading loop of Decoder::read_control_frame (src/decoder.rs
lines 59-65): while `remaining > 8`, parse one control field against the
budget `remaining`, collect its string, and subtract the bytes it consumed.
The source performs `remaining -= n` on a usize; the case `n > remaining`,
which would make that subtraction underflow (a checked-arithmetic panic),
is modelled as the explicit error `usizeUnderflow`. Termination: a parsed
field always reports `n = 8 + field_len ≥ 8` consumed bytes, so `remaining`
strictly decreases. -/
def readFieldsLoop (remaining : Nat) (s : List Nat) :
    Except DecError (List String × List Nat) :=
  if h : remaining > 8 then
    match hcf : read_control_field remaining s with
    | .error e => .error e
    | .ok ((ctype, n), s') =>
      if hn : n ≤ remaining then
        match readFieldsLoop (remaining - n) s' with
        | .error e => .error e
        | .ok (ctypes, s2) => .ok (ctype :: ctypes, s2)
      else .error .usizeUnderflow
  else .ok ([], s)
termination_by remaining
decreasing_by
  have h8 : 8 ≤ n := by
    unfold read_control_field at hcf
    repeat' split at hcf
    all_goals try cases hcf
    all_goals omega
  omega

/-- Decoder::read_control_frame (src/decoder.rs lines 41-71): read the
32-bit control-frame length, reject it when above MAX_CONTROL_FRAME_LENGTH
or below 4, read the 32-bit control type, then run the field loop on the
`frame_len - 4` remaining declared bytes. -/
def read_control_frame (s : List Nat) : Except DecError (ControlFrame × List Nat) :=
  match read_u32 s with
  | .error e => .error e
  | .ok (frame_len, s1) =>
    if frame_len > MAX_CONTROL_FRAME_LENGTH then
      .error (.invalidData ("control frame too large: len=" ++ toString frame_len))
    else if frame_len < 4 then
      .error (.invalidData "control frame too short")
    else
      match read_u32 s1 with
      | .error e => .error e
      | .ok (control_type, s2) =>
        match readFieldsLoop (frame_len - 4) s2 with
        | .error e => .error e
        | .ok (content_types, s3) =>
          .ok ({ control_type := control_type, content_types := some content_types }, s3)

/-- Decoder::read_start_frame (src/decoder.rs lines 106-125): require a
32-bit zero sentinel, then one control frame whose type is CONTROL_START. -/
def read_start_frame (s : List Nat) : Except DecError (Unit × List Nat) :=
  match read_u32 s with
  | .error e => .error e
  | .ok (n, s1) =>
    if n ≠ 0 then .error (.invalidData "control start frame did not start with zero")
    else
      match read_control_frame s1 with
      | .error e => .error e
      | .ok (frame, s2) =>
        if frame.control_type = CONTROL_START then .ok ((), s2)
        else .error (.invalidInput "expected control start frame")

/-- Decoder::read_frame_length (src/decoder.rs lines 127-130): one 32-bit
big-endian length, widened to usize. -/
def read_frame_length (s : List Nat) : Except DecError (Nat × List Nat) :=
  read_u32 s

/-- Decoder::read_n (src/decoder.rs lines 132-144): reject when `n` exceeds
the buffer length, otherwise fill the first `n` buffer slots from the
source and report `n`. The result carries the caller's buffer and the rest
of the source alongside the `Result`, mirroring the mutable borrows; on
the short-read error the buffer contents are unspecified in Rust and
modelled unchanged. -/
def read_n (n : Nat) (buf s : List Nat) :
    Except DecError Nat × List Nat × List Nat :=
  if n > buf.length then (.error (.other "data frame too large for buffer"), buf, s)
  else
    match read_exact n s with
    | .error e => (.error e, buf, s)
    | .ok (bytes, s') => (.ok n, bytes ++ buf.drop n, s')

/-- The decoder of src/decoder.rs lines 10-16: the remaining bytes of the
wrapped reader, the configured (never consulted) content-type filter, and
the session-started flag. The commented-out `bidirectional` field is
absent. -/
structure Decoder : Type where
  reader : List Nat
  content_type : Option String
  started : Bool
deriving DecidableEq, Repr

/-- Decoder::new (src/decoder.rs lines 20-27). -/
def Decoder.new (source : List Nat) : Decoder :=
  { reader := source, content_type := none, started := false }

/-- The shared prologue of Read::read and Iterator::next (src/decoder.rs
lines 157-160 and 188-191): when the started flag is unset, consume the
start handshake and set the flag; otherwise leave the decoder untouched. -/
def startIfNeeded (d : Decoder) : Except DecError Decoder :=
  if d.started then .ok d
  else
    match read_start_frame d.reader with
    | .error e => .error e
    | .ok (_, s') => .ok { d with reader := s', started := true }

/-- The body of Read::read after the handshake prologue (src/decoder.rs
lines 162-176): read the frame length; zero dispatches to control-frame
parsing and reports 0 without touching the buffer (the STOP comparison
there guards only a commented-out bidirectional hook); nonzero dispatches
to read_n. -/
def readAfterStart (d : Decoder) (buf : List Nat) :
    Except DecError Nat × List Nat × Decoder :=
  match read_frame_length d.reader with
  | .error e => (.error e, buf, d)
  | .ok (frame_len, s) =>
    if frame_len = 0 then
      match read_control_frame s with
      | .error e => (.error e, buf, { d with reader := s })
      | .ok (_frame, s') => (.ok 0, buf, { d with reader := s' })
    else
      match read_n frame_len buf s with
      | (r, buf', s') => (r, buf', { d with reader := s' })

/-- Read::read for Decoder (src/decoder.rs lines 154-178). -/
def Decoder.read (d : Decoder) (buf : List Nat) :
    Except DecError Nat × List Nat × Decoder :=
  match startIfNeeded d with
  | .error e => (.error e, buf, d)
  | .ok d' => readAfterStart d' buf

/-- The produced frame type of src/decoder.rs lines 180-183. -/
structure Frame : Type where
  data : List Nat
deriving DecidableEq, Repr

/-- The tail of Iterator::next (src/decoder.rs lines 203-208): allocate a
zero-filled buffer of the frame length and fill it through read_n; any
failure ends the sequence. -/
def nextData (d : Decoder) (frame_len : Nat) : Option Frame × Decoder :=
  match read_n frame_len (List.replicate frame_len 0) d.reader with
  | (.ok _, buf', s') => (some { data := buf' }, { d with reader := s' })
  | (.error _, _, _) => (none, d)

/-- The body of Iterator::next after the handshake prologue (src/decoder.rs
lines 193-208): a zero frame length dispatches to control-frame parsing,
ending the sequence on a parse failure or a STOP type; any other control
type falls through to the data-reading tail with `frame_len = 0`, and a
nonzero length dispatches to the data-reading tail directly. -/
def nextAfterStart (d : Decoder) : Option Frame × Decoder :=
  match read_frame_length d.reader with
  | .error _ => (none, d)
  | .ok (frame_len, s) =>
    if frame_len = 0 then
      match read_control_frame s with
      | .error _ => (none, { d with reader := s })
      | .ok (frame, s') =>
        if frame.control_type = CONTROL_STOP then (none, { d with reader := s' })
        else nextData { d with reader := s' } frame_len
    else nextData { d with reader := s } frame_len

/-- Iterator::next for Decoder (src/decoder.rs lines 185-210). -/
def Decoder.next (d : Decoder) : Option Frame × Decoder :=
  match startIfNeeded d with
  | .error _ => (none, d)
  | .ok d' => nextAfterStart d'

/-- Big-endian 32-bit encoding of a number, as the wire format of §6 writes
length and type fields. -/
def be32 (n : Nat) : List Nat :=
  [n / 16777216 % 256, n / 65536 % 256, n / 256 % 256, n % 256]

/-- The minimal start handshake of §6: a zero sentinel, then a control
frame of declared length 4 whose control type is START and which carries
no fields. -/
def startHandshakeBytes : List Nat := be32 0 ++ (be32 4 ++ be32 CONTROL_START)

/-- A data frame of §6 carrying the payload `p` verbatim after its 32-bit
length. -/
def dataFrameBytes (p : List Nat) : List Nat := be32 p.length ++ p

/-- The STOP control frame of §6 preceded by its zero top-level length:
a control frame of declared length 4 whose control type is STOP. -/
def stopFrameBytes : List Nat := be32 0 ++ (be32 4 ++ be32 CONTROL_STOP)

/-- The round-trip stream of §8: START handshake, one data frame, STOP. -/
def roundTripStream (p : List Nat) : List Nat :=
  startHandshakeBytes ++ (dataFrameBytes p ++ stopFrameBytes)

/-- A successfully parsed control field always reports at least 8 consumed
bytes (its two 32-bit headers). -/
theorem read_control_field_consumes {limit n : Nat} {c : String} {s s' : List Nat}
    (h : read_control_field limit s = .ok ((c, n), s')) : 8 ≤ n := by
  unfold read_control_field at h
  repeat' split at h
  all_goals try cases h
  all_goals omega

/-- The field loop exits without touching the source whenever
`remaining ≤ 8`. -/
theorem readFieldsLoop_stop {remaining : Nat} (s : List Nat) (h : remaining ≤ 8) :
    readFieldsLoop remaining s = .ok ([], s) := by
  rw [readFieldsLoop]
  simp [Nat.not_lt.mpr h]

/-- One unfolding of the field loop in the `remaining > 8` case. -/
theorem readFieldsLoop_step {remaining : Nat} (s : List Nat) (h : 8 < remaining) :
    readFieldsLoop remaining s =
      match read_control_field remaining s with
      | .error e => .error e
      | .ok ((ctype, n), s') =>
        if n ≤ remaining then
          match readFieldsLoop (remaining - n) s' with
          | .error e => .error e
          | .ok (ctypes, s2) => .ok (ctype :: ctypes, s2)
        else .error .usizeUnderflow := by
  rw [readFieldsLoop, dif_pos h]
  split
  · rename_i e heq
    rw [heq]
  · rename_i ctype n s' heq
    rw [heq]
    by_cases hn : n ≤ remaining
    · rw [dif_pos hn]
      simp [hn]
    · rw [dif_neg hn]
      simp [hn]

/-- Reading back a big-endian encoding recovers the encoded number. -/
theorem read_u32_be32 {n : Nat} (s : List Nat) (h : n < 4294967296) :
    read_u32 (be32 n ++ s) = .ok (n, s) := by
  simp only [be32, read_u32, List.cons_append, List.nil_append]
  congr 2
  omega

/-- Reading exactly the length of a prefix consumes that prefix. -/
theorem read_exact_prefix {n : Nat} {p : List Nat} (rest : List Nat) (hp : p.length = n) :
    read_exact n (p ++ rest) = .ok (p.map (fun b => b % 256), rest) := by
  subst hp
  simp [read_exact, List.take_left, List.drop_left]

/-- Reducing genuine bytes modulo 256 is the identity. -/
theorem map_mod_id {p : List Nat} (h : ∀ b ∈ p, b < 256) :
    p.map (fun b => b % 256) = p := by
  induction p with
  | nil => rfl
  | cons a t ih =>
    have ha : a % 256 = a := Nat.mod_eq_of_lt (h a (by simp))
    simp [ha, ih (fun b hb => h b (by simp [hb]))]

/-- A control frame whose declared length lies in `[4, 12]` parses to its
bare control type: the field loop starts with `remaining = L - 4 ≤ 8` and
exits at once, leaving every declared leftover byte in the source. -/
theorem read_control_frame_noFields {L t : Nat} (rest : List Nat)
    (h4 : 4 ≤ L) (h12 : L ≤ 12) (ht : t < 4294967296) :
    read_control_frame (be32 L ++ (be32 t ++ rest))
      = .ok ({ control_type := t, content_types := some [] }, rest) := by
  have hL : L < 4294967296 := by omega
  have h1 : ¬L > MAX_CONTROL_FRAME_LENGTH := by
    simp only [MAX_CONTROL_FRAME_LENGTH]
    omega
  have h2 : ¬L < 4 := by omega
  have h3 : L - 4 ≤ 8 := by omega
  simp only [read_control_frame, read_u32_be32 _ hL, read_u32_be32 _ ht,
    if_neg h1, if_neg h2, readFieldsLoop_stop _ h3]

/-- A nonzero sentinel fails the start handshake with a data-format
error. -/
theorem read_start_frame_nonzero {k : Nat} (rest : List Nat)
    (hk32 : k < 4294967296) (hk : k ≠ 0) :
    read_start_frame (be32 k ++ rest)
      = .error (.invalidData "control start frame did not start with zero") := by
  simp only [read_start_frame, read_u32_be32 _ hk32, if_pos hk]

/-- After the zero sentinel, the handshake defers to control-frame parsing
and accepts exactly the START type. -/
theorem read_start_frame_control {s s2 : List Nat} {cf : ControlFrame}
    (h : read_control_frame s = .ok (cf, s2)) :
    read_start_frame (be32 0 ++ s)
      = if cf.control_type = CONTROL_START then .ok ((), s2)
        else .error (.invalidInput "expected control start frame") := by
  simp only [read_start_frame, read_u32_be32 s (show (0:Nat) < 4294967296 by norm_num), h]
  simp

/-- The minimal START handshake is consumed exactly, leaving the rest of
the source untouched. -/
theorem read_start_frame_minimal (rest : List Nat) :
    read_start_frame (startHandshakeBytes ++ rest) = .ok ((), rest) := by
  have h := read_control_frame_noFields (L := 4) (t := CONTROL_START) rest
    (by decide) (by decide) (by decide)
  have h2 := read_start_frame_control h
  simpa [startHandshakeBytes, List.append_assoc, CONTROL_START] using h2

/-- A started decoder goes straight to frame dispatch in pull mode: the
handshake path is skipped entirely. -/
theorem read_skips_handshake (s : List Nat) (ct : Option String) (buf : List Nat) :
    Decoder.read ⟨s, ct, true⟩ buf = readAfterStart ⟨s, ct, true⟩ buf := rfl

/-- A started decoder goes straight to frame dispatch in sequence mode: the
handshake path is skipped entirely. -/
theorem next_skips_handshake (s : List Nat) (ct : Option String) :
    Decoder.next ⟨s, ct, true⟩ = nextAfterStart ⟨s, ct, true⟩ := rfl

/-- A fresh decoder first consumes the handshake, marks itself started, and
dispatches on the remaining source within the same pull call. -/
theorem read_consumes_handshake {s s2 : List Nat} (ct : Option String) (buf : List Nat)
    (h : read_start_frame s = .ok ((), s2)) :
    Decoder.read ⟨s, ct, false⟩ buf = readAfterStart ⟨s2, ct, true⟩ buf := by
  simp only [Decoder.read, startIfNeeded, h]
  rfl

/-- A fresh decoder first consumes the handshake, marks itself started, and
dispatches on the remaining source within the same sequence call. -/
theorem next_consumes_handshake {s s2 : List Nat} (ct : Option String)
    (h : read_start_frame s = .ok ((), s2)) :
    Decoder.next ⟨s, ct, false⟩ = nextAfterStart ⟨s2, ct, true⟩ := by
  simp only [Decoder.next, startIfNeeded, h]
  rfl

/-- Pull mode, zero top-level length, control frame parses: the call
reports 0 and the buffer is returned untouched, for every control type. -/
theorem readAfterStart_control_ok {s s' : List Nat} {cf : ControlFrame}
    (ct : Option String) (buf : List Nat) (h : read_control_frame s = .ok (cf, s')) :
    readAfterStart ⟨be32 0 ++ s, ct, true⟩ buf = (.ok 0, buf, ⟨s', ct, true⟩) := by
  simp only [readAfterStart, read_frame_length, read_u32_be32 s (show (0:Nat) < 4294967296 by norm_num), h]
  simp

/-- Pull mode, zero top-level length, control frame fails: the control
error propagates and the buffer is returned untouched. -/
theorem readAfterStart_control_err {s : List Nat} {e : DecError}
    (ct : Option String) (buf : List Nat) (h : read_control_frame s = .error e) :
    readAfterStart ⟨be32 0 ++ s, ct, true⟩ buf = (.error e, buf, ⟨s, ct, true⟩) := by
  simp only [readAfterStart, read_frame_length, read_u32_be32 s (show (0:Nat) < 4294967296 by norm_num), h]
  simp

/-- Pull mode, nonzero top-level length: the declared payload is copied
into the front of the buffer verbatim, with no control-frame parsing of its
content. -/
theorem readAfterStart_data {p : List Nat} (ct : Option String) (buf rest : List Nat)
    (hn0 : p.length ≠ 0) (h32 : p.length < 4294967296) (hbuf : p.length ≤ buf.length) :
    readAfterStart ⟨be32 p.length ++ (p ++ rest), ct, true⟩ buf
      = (.ok p.length, p.map (fun b => b % 256) ++ buf.drop p.length, ⟨rest, ct, true⟩) := by
  simp only [readAfterStart, read_frame_length, read_u32_be32 _ h32, if_neg hn0,
    read_n, if_neg (show ¬p.length > buf.length by omega), read_exact_prefix rest rfl]

/-- Pull mode on an exhausted source: the length read itself fails. -/
theorem readAfterStart_eof (ct : Option String) (buf : List Nat) :
    readAfterStart ⟨[], ct, true⟩ buf = (.error .eof, buf, ⟨[], ct, true⟩) := rfl

/-- Sequence mode, zero top-level length, STOP control frame: the sequence
ends. -/
theorem nextAfterStart_stop {s s' : List Nat} {cf : ControlFrame} (ct : Option String)
    (h : read_control_frame s = .ok (cf, s')) (hstop : cf.control_type = CONTROL_STOP) :
    nextAfterStart ⟨be32 0 ++ s, ct, true⟩ = (none, ⟨s', ct, true⟩) := by
  simp only [nextAfterStart, read_frame_length, read_u32_be32 s (show (0:Nat) < 4294967296 by norm_num), h]
  simp [hstop]

/-- Sequence mode, zero top-level length, control frame of any type other
than STOP: the call falls through to the data path with length 0 and yields
an empty frame. -/
theorem nextAfterStart_nonstop {s s' : List Nat} {cf : ControlFrame} (ct : Option String)
    (h : read_control_frame s = .ok (cf, s')) (hstop : cf.control_type ≠ CONTROL_STOP) :
    nextAfterStart ⟨be32 0 ++ s, ct, true⟩ = (some ⟨[]⟩, ⟨s', ct, true⟩) := by
  simp only [nextAfterStart, read_frame_length, read_u32_be32 s (show (0:Nat) < 4294967296 by norm_num), h]
  simp [hstop, nextData, read_n, read_exact]

/-- Sequence mode, zero top-level length, control frame fails: the sequence
ends. -/
theorem nextAfterStart_err {s : List Nat} {e : DecError} (ct : Option String)
    (h : read_control_frame s = .error e) :
    nextAfterStart ⟨be32 0 ++ s, ct, true⟩ = (none, ⟨s, ct, true⟩) := by
  simp only [nextAfterStart, read_frame_length, read_u32_be32 s (show (0:Nat) < 4294967296 by norm_num), h]
  simp

/-- Sequence mode, nonzero top-level length: the declared payload is turned
into a frame verbatim, with no control-frame parsing of its content. -/
theorem nextAfterStart_data {p : List Nat} (ct : Option String) (rest : List Nat)
    (hn0 : p.length ≠ 0) (h32 : p.length < 4294967296) :
    nextAfterStart ⟨be32 p.length ++ (p ++ rest), ct, true⟩
      = (some ⟨p.map (fun b => b % 256)⟩, ⟨rest, ct, true⟩) := by
  simp only [nextAfterStart, read_frame_length, read_u32_be32 _ h32, if_neg hn0,
    nextData, read_n, if_neg (show ¬p.length > (List.replicate p.length 0).length by simp),
    read_exact_prefix rest rfl]
  simp [List.drop_eq_nil_of_le]

/-- Sequence mode on an exhausted source: the sequence ends. -/
theorem nextAfterStart_eof (ct : Option String) :
    nextAfterStart ⟨[], ct, true⟩ = (none, ⟨[], ct, true⟩) := rfl

/-- C5: read_control_frame rejects with a data-format error any control
frame whose declared length L satisfies L > 512 or L < 4, and accepts a
declared length of exactly 4 (control type only, no fields) without
error. -/
theorem c5_control_frame_bounds :
    (∀ L rest, L < 4294967296 → 512 < L →
      read_control_frame (be32 L ++ rest)
        = .error (.invalidData ("control frame too large: len=" ++ toString L))) ∧
    (∀ L rest, L < 4 →
      read_control_frame (be32 L ++ rest)
        = .error (.invalidData "control frame too short")) ∧
    (∀ t rest, t < 4294967296 →
      read_control_frame (be32 4 ++ (be32 t ++ rest))
        = .ok ({ control_type := t, content_types := some [] }, rest)) := by
  refine ⟨?_, ?_, ?_⟩
  · intro L rest hL h
    have hmax : L > MAX_CONTROL_FRAME_LENGTH := by
      simp only [MAX_CONTROL_FRAME_LENGTH]
      omega
    simp only [read_control_frame, read_u32_be32 rest hL, if_pos hmax]
  · intro L rest h
    have hL : L < 4294967296 := by omega
    have hmax : ¬L > MAX_CONTROL_FRAME_LENGTH := by
      simp only [MAX_CONTROL_FRAME_LENGTH]
      omega
    simp only [read_control_frame, read_u32_be32 rest hL, if_neg hmax, if_pos h]
  · intro t rest ht
    exact read_control_frame_noFields rest (by norm_num) (by norm_num) ht

/-- C5 witness: declared length 513 is rejected, 3 is rejected, and 4 with
a bare control type is accepted, at concrete inputs. -/
theorem c5_control_frame_bounds_witness :
    read_control_frame (be32 513 ++ [])
      = .error (.invalidData ("control frame too large: len=" ++ toString 513)) ∧
    read_control_frame (be32 3 ++ [])
      = .error (.invalidData "control frame too short") ∧
    read_control_frame (be32 4 ++ (be32 2 ++ [9, 9]))
      = .ok ({ control_type := 2, content_types := some [] }, [9, 9]) :=
  ⟨c5_control_frame_bounds.1 513 [] (by norm_num) (by norm_num),
   c5_control_frame_bounds.2.1 3 [] (by norm_num),
   c5_control_frame_bounds.2.2 2 [9, 9] (by norm_num)⟩

/-- C6: read_control_field rejects an unrecognized 32-bit field-type code
with an input-validation error; rejects a 32-bit value length above the
caller's limit with an input-validation error; and otherwise reads exactly
value_length bytes, decodes them with the total lossy UTF-8 decoder (which
never fails), and returns the decoded string with 8 + value_length as the
bytes consumed. -/
theorem c6_control_field_contract :
    (∀ limit t rest, t < 4294967296 → t ≠ CONTROL_FIELD_CONTENT_TYPE →
      read_control_field limit (be32 t ++ rest)
        = .error (.invalidInput
            ("expected control field content type, got " ++ hexString t))) ∧
    (∀ limit len rest, len < 4294967296 → limit < len →
      read_control_field limit (be32 CONTROL_FIELD_CONTENT_TYPE ++ (be32 len ++ rest))
        = .error (.invalidInput
            ("field contents too large (len=" ++ toString len
              ++ " limit=" ++ toString limit ++ ")"))) ∧
    (∀ limit v rest, v.length ≤ limit → v.length < 4294967296 →
      read_control_field limit
          (be32 CONTROL_FIELD_CONTENT_TYPE ++ (be32 v.length ++ (v ++ rest)))
        = .ok ((from_utf8_lossy (v.map (fun b => b % 256)), 8 + v.length), rest)) := by
  refine ⟨?_, ?_, ?_⟩
  · intro limit t rest ht hne
    simp only [read_control_field, read_u32_be32 rest ht, if_pos hne]
  · intro limit len rest hlen hlim
    simp only [read_control_field,
      read_u32_be32 (be32 len ++ rest)
        (show CONTROL_FIELD_CONTENT_TYPE < 4294967296 by decide),
      read_u32_be32 rest hlen]
    simp [hlim]
  · intro limit v rest hle h32
    simp only [read_control_field,
      read_u32_be32 (be32 v.length ++ (v ++ rest))
        (show CONTROL_FIELD_CONTENT_TYPE < 4294967296 by decide),
      read_u32_be32 (v ++ rest) h32, read_exact_prefix rest rfl]
    simp [Nat.not_lt.mpr hle]

/-- C6 witness: an unrecognized type code 2 is rejected, a value length 2
above limit 1 is rejected, and a 3-byte value under limit 10 decodes with
11 bytes consumed, at concrete inputs. -/
theorem c6_control_field_contract_witness :
    read_control_field 10 (be32 2 ++ [])
      = .error (.invalidInput
          ("expected control field content type, got " ++ hexString 2)) ∧
    read_control_field 1 (be32 CONTROL_FIELD_CONTENT_TYPE ++ (be32 2 ++ []))
      = .error (.invalidInput
          ("field contents too large (len=" ++ toString 2
            ++ " limit=" ++ toString 1 ++ ")")) ∧
    read_control_field 10
        (be32 CONTROL_FIELD_CONTENT_TYPE ++ (be32 ([97, 98, 99] : List Nat).length
          ++ ([97, 98, 99] ++ [5])))
      = .ok ((from_utf8_lossy ([97, 98, 99].map (fun b => b % 256)),
          8 + ([97, 98, 99] : List Nat).length), [5]) :=
  ⟨c6_control_field_contract.1 10 2 [] (by norm_num) (by decide),
   c6_control_field_contract.2.1 1 2 [] (by norm_num) (by norm_num),
   c6_control_field_contract.2.2 10 [97, 98, 99] [5] (by decide) (by decide)⟩

/-- C7: the field loop of read_control_frame runs exactly while
remaining > 8 and stops as soon as remaining ≤ 8 even when nonzero; in
particular any control frame declaring between 0 and 8 field bytes parses
to its bare type with those declared bytes left unconsumed in the
source. -/
theorem c7_loop_exit_policy :
    (∀ r s, r ≤ 8 → readFieldsLoop r s = .ok ([], s)) ∧
    (∀ r s, 8 < r → readFieldsLoop r s =
      match read_control_field r s with
      | .error e => .error e
      | .ok ((ctype, n), s') =>
        if n ≤ r then
          match readFieldsLoop (r - n) s' with
          | .error e => .error e
          | .ok (ctypes, s2) => .ok (ctype :: ctypes, s2)
        else .error .usizeUnderflow) ∧
    (∀ L t rest, 4 ≤ L → L ≤ 12 → t < 4294967296 →
      read_control_frame (be32 L ++ (be32 t ++ rest))
        = .ok ({ control_type := t, content_types := some [] }, rest)) :=
  ⟨fun _ s h => readFieldsLoop_stop s h,
   fun _ s h => readFieldsLoop_step s h,
   fun _ _ rest h4 h12 ht => read_control_frame_noFields rest h4 h12 ht⟩

/-- C7 witness: a budget of exactly 8 parses no field and consumes nothing,
and a control frame of declared length 12 leaves its 8 declared field bytes
unconsumed, at concrete inputs. -/
theorem c7_loop_exit_policy_witness :
    readFieldsLoop 8 [1, 2, 3] = .ok ([], [1, 2, 3]) ∧
    read_control_frame (be32 12 ++ (be32 5 ++ [1, 2, 3, 4, 5, 6, 7, 8]))
      = .ok ({ control_type := 5, content_types := some [] }, [1, 2, 3, 4, 5, 6, 7, 8]) :=
  ⟨c7_loop_exit_policy.1 8 [1, 2, 3] (by norm_num),
   c7_loop_exit_policy.2.2 12 5 [1, 2, 3, 4, 5, 6, 7, 8]
     (by norm_num) (by norm_num) (by norm_num)⟩

/-- C9: in pull mode, a declared data-frame length above the caller's
buffer capacity fails with a capacity error and writes nothing; otherwise
exactly that many bytes are read from the source into the front of the
buffer and that count is returned. -/
theorem c9_read_n_contract :
    (∀ n buf s, buf.length < n →
      read_n n buf s = (.error (.other "data frame too large for buffer"), buf, s)) ∧
    (∀ n buf p rest, n ≤ buf.length → p.length = n →
      read_n n buf (p ++ rest)
        = (.ok n, p.map (fun b => b % 256) ++ buf.drop n, rest)) := by
  constructor
  · intro n buf s h
    simp [read_n, h]
  · intro n buf p rest hbuf hp
    simp only [read_n, if_neg (show ¬n > buf.length by omega), read_exact_prefix rest hp]

/-- C9 witness: length 4 against a 2-slot buffer fails with the capacity
error leaving the buffer and source untouched; length 2 against a 3-slot
buffer copies the two source bytes over the buffer's front, at concrete
inputs. -/
theorem c9_read_n_contract_witness :
    read_n 4 [0, 0] [9, 9, 9, 9]
      = (.error (.other "data frame too large for buffer"), [0, 0], [9, 9, 9, 9]) ∧
    read_n 2 [7, 7, 7] ([5, 6] ++ [8])
      = (.ok 2, [5, 6].map (fun b => b % 256) ++ [7, 7, 7].drop 2, [8]) :=
  ⟨c9_read_n_contract.1 4 [0, 0] [9, 9, 9, 9] (by norm_num),
   c9_read_n_contract.2 2 [7, 7, 7] [5, 6] [8] (by norm_num) (by decide)⟩

/-- C4 (amended): an accepted control field consumes exactly
8 + value_length bytes with value_length ≤ limit; that bounds consumption
only by limit + 8, so inside the loop (where limit is the remaining
budget) an accepted field can consume up to 8 bytes more than the budget
and the usize subtraction can underflow — the budget check alone does not
keep the remaining counter nonnegative. -/
theorem c4_field_budget {limit n : Nat} {c : String} {s s' : List Nat}
    (h : read_control_field limit s = .ok ((c, n), s')) :
    8 ≤ n ∧ n ≤ 8 + limit ∧ ∃ len ≤ limit, n = 8 + len := by
  have h8 : 8 ≤ n := read_control_field_consumes h
  have hle : n ≤ 8 + limit := by
    unfold read_control_field at h
    repeat' split at h
    all_goals try cases h
    omega
  exact ⟨h8, hle, n - 8, by omega, by omega⟩

/-- C4 witness: a field declaring a 3-byte value against limit 20 is
accepted and consumes 11 = 8 + 3 ≤ 8 + 20 bytes. -/
theorem c4_field_budget_witness :
    8 ≤ 11 ∧ 11 ≤ 8 + 20 ∧ ∃ len ≤ 20, 11 = 8 + len :=
  @c4_field_budget 20 11 (from_utf8_lossy [97, 98, 99])
    [0, 0, 0, 1, 0, 0, 0, 3, 97, 98, 99] [] (by rfl)

/-- C4 counterexample: a control frame of declared length 14 leaves a
budget of 10; its single field declares a 9-byte value, which passes the
budget check (9 ≤ 10) yet consumes 8 + 9 = 17 > 10 bytes, so the
`remaining -= n` subtraction underflows. -/
theorem c4_budget_counterexample :
    read_control_frame [0, 0, 0, 14, 0, 0, 0, 2, 0, 0, 0, 1, 0, 0, 0, 9,
        97, 97, 97, 97, 97, 97, 97, 97, 97]
      = .error .usizeUnderflow := by
  have h : read_control_field 10
      [0, 0, 0, 1, 0, 0, 0, 9, 97, 97, 97, 97, 97, 97, 97, 97, 97]
      = .ok ((from_utf8_lossy [97, 97, 97, 97, 97, 97, 97, 97, 97], 17), []) := by
    rfl
  simp [read_control_frame, read_u32, MAX_CONTROL_FRAME_LENGTH, readFieldsLoop_step, h]

/-- C1: for a payload P with 0 < len(P) ≤ 512, the stream built as
START-handshake, frame(P), STOP decodes in pull mode to exactly the bytes
of P with return value len(P) (the following call reporting 0 at the STOP
frame), and in sequence mode to exactly one Frame whose data equals P
followed by end of sequence. -/
theorem c1_round_trip (p buf : List Nat) (hpos : 0 < p.length)
    (hlen : p.length ≤ 512) (hbytes : ∀ b ∈ p, b < 256)
    (hbuf : p.length ≤ buf.length) :
    Decoder.read (Decoder.new (roundTripStream p)) buf
      = (.ok p.length, p ++ buf.drop p.length, ⟨stopFrameBytes, none, true⟩) ∧
    Decoder.read ⟨stopFrameBytes, none, true⟩ buf = (.ok 0, buf, ⟨[], none, true⟩) ∧
    Decoder.next (Decoder.new (roundTripStream p))
      = (some ⟨p⟩, ⟨stopFrameBytes, none, true⟩) ∧
    Decoder.next ⟨stopFrameBytes, none, true⟩ = (none, ⟨[], none, true⟩) := by
  have h32 : p.length < 4294967296 := by omega
  have hn0 : p.length ≠ 0 := by omega
  have hmap := map_mod_id hbytes
  have hshape : roundTripStream p
      = startHandshakeBytes ++ (be32 p.length ++ (p ++ stopFrameBytes)) := by
    simp [roundTripStream, dataFrameBytes, List.append_assoc]
  have hstop_cf : read_control_frame (be32 4 ++ be32 CONTROL_STOP)
      = .ok ({ control_type := CONTROL_STOP, content_types := some [] }, []) := by
    simpa using read_control_frame_noFields (L := 4) (t := CONTROL_STOP) []
      (by decide) (by decide) (by decide)
  refine ⟨?_, ?_, ?_, ?_⟩
  · show Decoder.read ⟨roundTripStream p, none, false⟩ buf = _
    rw [hshape, read_consumes_handshake none buf (read_start_frame_minimal _),
      readAfterStart_data none buf stopFrameBytes hn0 h32 hbuf, hmap]
  · have h := readAfterStart_control_ok none buf hstop_cf
    rw [read_skips_handshake]
    simpa [stopFrameBytes] using h
  · show Decoder.next ⟨roundTripStream p, none, false⟩ = _
    rw [hshape, next_consumes_handshake none (read_start_frame_minimal _),
      nextAfterStart_data none stopFrameBytes hn0 h32, hmap]
  · have h := nextAfterStart_stop none hstop_cf rfl
    rw [next_skips_handshake]
    simpa [stopFrameBytes] using h

/-- C1 witness: the two-byte payload 104,105 rounds through the stream,
giving pull result 2 with the buffer front overwritten and one sequence
frame followed by sequence end. -/
theorem c1_round_trip_witness :
    Decoder.read (Decoder.new (roundTripStream [104, 105])) [7, 7, 7]
      = (.ok 2, [104, 105, 7], ⟨stopFrameBytes, none, true⟩) ∧
    Decoder.read ⟨stopFrameBytes, none, true⟩ [7, 7, 7]
      = (.ok 0, [7, 7, 7], ⟨[], none, true⟩) ∧
    Decoder.next (Decoder.new (roundTripStream [104, 105]))
      = (some ⟨[104, 105]⟩, ⟨stopFrameBytes, none, true⟩) ∧
    Decoder.next ⟨stopFrameBytes, none, true⟩ = (none, ⟨[], none, true⟩) := by
  have h := c1_round_trip [104, 105] [7, 7, 7] (by decide) (by decide)
    (by decide) (by decide)
  simpa using h

/-- C8: the start handshake consumes exactly one 32-bit zero sentinel and
one control frame, failing on a nonzero sentinel or a non-START control
type; a successful public read on a fresh decoder runs it and sets the
started flag within that call, and every call on a started decoder skips
the handshake path entirely, so the handshake executes at most once per
decoder instance. -/
theorem c8_handshake_once :
    (∀ k rest, k < 4294967296 → k ≠ 0 →
      read_start_frame (be32 k ++ rest)
        = .error (.invalidData "control start frame did not start with zero")) ∧
    (∀ s s2 cf, read_control_frame s = .ok (cf, s2) →
      read_start_frame (be32 0 ++ s)
        = if cf.control_type = CONTROL_START then .ok ((), s2)
          else .error (.invalidInput "expected control start frame")) ∧
    (∀ ct buf s s2, read_start_frame s = .ok ((), s2) →
      Decoder.read ⟨s, ct, false⟩ buf = readAfterStart ⟨s2, ct, true⟩ buf) ∧
    (∀ ct buf s, Decoder.read ⟨s, ct, true⟩ buf = readAfterStart ⟨s, ct, true⟩ buf) ∧
    (∀ ct s, Decoder.next ⟨s, ct, true⟩ = nextAfterStart ⟨s, ct, true⟩) :=
  ⟨fun _ rest h32 hk => read_start_frame_nonzero rest h32 hk,
   fun _ _ _ h => read_start_frame_control h,
   fun ct buf _ _ h => read_consumes_handshake ct buf h,
   fun ct buf s => read_skips_handshake s ct buf,
   fun ct s => next_skips_handshake s ct⟩

/-- C8 witness: sentinel 7 is rejected; a zero sentinel followed by a bare
START control frame is accepted consuming exactly those bytes; fresh and
started decoders dispatch as stated, at concrete inputs. -/
theorem c8_handshake_once_witness :
    read_start_frame (be32 7 ++ [])
      = .error (.invalidData "control start frame did not start with zero") ∧
    read_start_frame (be32 0 ++ (be32 4 ++ (be32 2 ++ []))) = .ok ((), []) ∧
    Decoder.read ⟨startHandshakeBytes ++ [], none, false⟩ [3]
      = readAfterStart ⟨[], none, true⟩ [3] ∧
    Decoder.read ⟨[9], none, true⟩ [3] = readAfterStart ⟨[9], none, true⟩ [3] ∧
    Decoder.next ⟨[9], none, true⟩ = nextAfterStart ⟨[9], none, true⟩ := by
  refine ⟨c8_handshake_once.1 7 [] (by norm_num) (by norm_num), ?_,
    c8_handshake_once.2.2.1 none [3] _ _ (read_start_frame_minimal []),
    c8_handshake_once.2.2.2.1 none [3] [9],
    c8_handshake_once.2.2.2.2 none [9]⟩
  have h2 := c8_handshake_once.2.1 (be32 4 ++ (be32 2 ++ []))
    [] { control_type := 2, content_types := some [] }
    (read_control_frame_noFields [] (by norm_num) (by norm_num) (by norm_num))
  simpa [CONTROL_START] using h2

/-- C10: in pull mode, every successfully parsed mid-stream control frame
(top-level length field 0) makes the call return 0 and leaves the output
buffer unmodified regardless of the control type, so the 0 return value
does not distinguish a STOP control frame from any other. -/
theorem c10_pull_control_zero (ct : Option String) (buf s s' : List Nat)
    (cf : ControlFrame) (h : read_control_frame s = .ok (cf, s')) :
    Decoder.read ⟨be32 0 ++ s, ct, true⟩ buf = (.ok 0, buf, ⟨s', ct, true⟩) := by
  rw [read_skips_handshake]
  exact readAfterStart_control_ok ct buf h

/-- C10 witness: a control frame of unrelated type 9 and a STOP control
frame both make pull mode return 0 with the buffer untouched. -/
theorem c10_pull_control_zero_witness :
    Decoder.read ⟨be32 0 ++ (be32 4 ++ be32 9), none, true⟩ [5, 6]
      = (.ok 0, [5, 6], ⟨[], none, true⟩) ∧
    Decoder.read ⟨be32 0 ++ (be32 4 ++ be32 CONTROL_STOP), none, true⟩ [5, 6]
      = (.ok 0, [5, 6], ⟨[], none, true⟩) := by
  have h9 : read_control_frame (be32 4 ++ be32 9)
      = .ok ({ control_type := 9, content_types := some [] }, []) := by
    simpa using read_control_frame_noFields (L := 4) (t := 9) []
      (by decide) (by decide) (by decide)
  have hstop : read_control_frame (be32 4 ++ be32 CONTROL_STOP)
      = .ok ({ control_type := CONTROL_STOP, content_types := some [] }, []) := by
    simpa using read_control_frame_noFields (L := 4) (t := CONTROL_STOP) []
      (by decide) (by decide) (by decide)
  exact ⟨c10_pull_control_zero none [5, 6] _ [] _ h9,
    c10_pull_control_zero none [5, 6] _ [] _ hstop⟩

/-- C2 counterexample: a fresh decoder whose source carries, after the
handshake, a call with top-level length field 0 and a control frame of the
non-STOP type START nevertheless produces a (zero-length) Frame in
sequence mode from that very call. -/
theorem c2_dispatch_counterexample :
    Decoder.next (Decoder.new (startHandshakeBytes ++ [0, 0, 0, 0, 0, 0, 0, 4, 0, 0, 0, 2]))
      = (some ⟨[]⟩, ⟨[], none, true⟩) := by
  have h : read_control_frame [0, 0, 0, 4, 0, 0, 0, 2]
      = .ok ({ control_type := 2, content_types := some [] }, []) := by
    simpa using read_control_frame_noFields (L := 4) (t := 2) []
      (by decide) (by decide) (by decide)
  have hns := nextAfterStart_nonstop none h (by decide)
  rw [show Decoder.new (startHandshakeBytes ++ [0, 0, 0, 0, 0, 0, 0, 4, 0, 0, 0, 2])
      = ⟨startHandshakeBytes ++ [0, 0, 0, 0, 0, 0, 0, 4, 0, 0, 0, 2], none, false⟩ from rfl,
    next_consumes_handshake none (read_start_frame_minimal _)]
  simpa using hns

/-- C2 (amended): a top-level length field of 0 always routes to
control-frame parsing and a nonzero length never does; in pull mode a
length-0 call never yields payload bytes whatever the control type; but in
sequence mode a length-0 call whose control frame has any type other than
STOP falls through and produces a zero-length Frame, so only STOP yields no
item. -/
theorem c2_dispatch :
    (∀ ct buf s s' cf, read_control_frame s = .ok (cf, s') →
      Decoder.read ⟨be32 0 ++ s, ct, true⟩ buf = (.ok 0, buf, ⟨s', ct, true⟩)) ∧
    (∀ ct buf s e, read_control_frame s = .error e →
      Decoder.read ⟨be32 0 ++ s, ct, true⟩ buf = (.error e, buf, ⟨s, ct, true⟩)) ∧
    (∀ ct s s' cf, read_control_frame s = .ok (cf, s') →
      cf.control_type = CONTROL_STOP →
      Decoder.next ⟨be32 0 ++ s, ct, true⟩ = (none, ⟨s', ct, true⟩)) ∧
    (∀ ct s s' cf, read_control_frame s = .ok (cf, s') →
      cf.control_type ≠ CONTROL_STOP →
      Decoder.next ⟨be32 0 ++ s, ct, true⟩ = (some ⟨[]⟩, ⟨s', ct, true⟩)) ∧
    (∀ ct buf p rest, p.length ≠ 0 → p.length < 4294967296 →
      p.length ≤ buf.length →
      Decoder.read ⟨be32 p.length ++ (p ++ rest), ct, true⟩ buf
        = (.ok p.length, p.map (fun b => b % 256) ++ buf.drop p.length,
            ⟨rest, ct, true⟩)) ∧
    (∀ ct p rest, p.length ≠ 0 → p.length < 4294967296 →
      Decoder.next ⟨be32 p.length ++ (p ++ rest), ct, true⟩
        = (some ⟨p.map (fun b => b % 256)⟩, ⟨rest, ct, true⟩)) := by
  refine ⟨?_, ?_, ?_, ?_, ?_, ?_⟩
  · intro ct buf s s' cf h
    rw [read_skips_handshake]
    exact readAfterStart_control_ok ct buf h
  · intro ct buf s e h
    rw [read_skips_handshake]
    exact readAfterStart_control_err ct buf h
  · intro ct s s' cf h hstop
    rw [next_skips_handshake]
    exact nextAfterStart_stop ct h hstop
  · intro ct s s' cf h hstop
    rw [next_skips_handshake]
    exact nextAfterStart_nonstop ct h hstop
  · intro ct buf p rest h0 h32 hbuf
    rw [read_skips_handshake]
    exact readAfterStart_data ct buf rest h0 h32 hbuf
  · intro ct p rest h0 h32
    rw [next_skips_handshake]
    exact nextAfterStart_data ct rest h0 h32

/-- C2 witness: a length-0 call with a control frame of type 9 yields a
zero-length Frame, and a nonzero length 2 yields the two payload bytes as
a Frame with no control parsing, at concrete inputs. -/
theorem c2_dispatch_witness :
    Decoder.next ⟨be32 0 ++ (be32 4 ++ be32 9), none, true⟩
      = (some ⟨[]⟩, ⟨[], none, true⟩) ∧
    Decoder.next ⟨be32 2 ++ ([11, 12] ++ [9]), none, true⟩
      = (some ⟨[11, 12]⟩, ⟨[9], none, true⟩) := by
  have h9 : read_control_frame (be32 4 ++ be32 9)
      = .ok ({ control_type := 9, content_types := some [] }, []) := by
    simpa using read_control_frame_noFields (L := 4) (t := 9) []
      (by decide) (by decide) (by decide)
  constructor
  · exact c2_dispatch.2.2.2.1 none _ [] _ h9 (by decide)
  · have h := c2_dispatch.2.2.2.2.2 none [11, 12] [9] (by decide) (by decide)
    simpa using h

/-- C3 counterexample: the decoder records no stopped state. On a stream
whose STOP control frame is followed by a one-byte data frame, the pull
call that parses STOP returns 0, yet the next pull call returns 1 with the
data byte, and sequence mode likewise yields a further Frame after the
STOP. -/
theorem c3_stop_counterexample :
    Decoder.read ⟨[0, 0, 0, 0, 0, 0, 0, 4, 0, 0, 0, 2,
        0, 0, 0, 0, 0, 0, 0, 4, 0, 0, 0, 3, 0, 0, 0, 1, 65], none, false⟩ [0]
      = (.ok 0, [0], ⟨[0, 0, 0, 1, 65], none, true⟩) ∧
    Decoder.read ⟨[0, 0, 0, 1, 65], none, true⟩ [0]
      = (.ok 1, [65], ⟨[], none, true⟩) ∧
    Decoder.next ⟨[0, 0, 0, 0, 0, 0, 0, 4, 0, 0, 0, 3, 0, 0, 0, 1, 65], none, true⟩
      = (none, ⟨[0, 0, 0, 1, 65], none, true⟩) ∧
    Decoder.next ⟨[0, 0, 0, 1, 65], none, true⟩
      = (some ⟨[65]⟩, ⟨[], none, true⟩) := by
  have hcf : read_control_frame [0, 0, 0, 4, 0, 0, 0, 3, 0, 0, 0, 1, 65]
      = .ok ({ control_type := 3, content_types := some [] }, [0, 0, 0, 1, 65]) := by
    simpa using read_control_frame_noFields (L := 4) (t := 3) [0, 0, 0, 1, 65]
      (by decide) (by decide) (by decide)
  have hsf : read_start_frame [0, 0, 0, 0, 0, 0, 0, 4, 0, 0, 0, 2,
      0, 0, 0, 0, 0, 0, 0, 4, 0, 0, 0, 3, 0, 0, 0, 1, 65]
      = .ok ((), [0, 0, 0, 0, 0, 0, 0, 4, 0, 0, 0, 3, 0, 0, 0, 1, 65]) := by
    simpa [startHandshakeBytes, CONTROL_START]
      using read_start_frame_minimal [0, 0, 0, 0, 0, 0, 0, 4, 0, 0, 0, 3, 0, 0, 0, 1, 65]
  refine ⟨?_, ?_, ?_, ?_⟩
  · rw [read_consumes_handshake none [0] hsf]
    have h := readAfterStart_control_ok none [0] hcf
    simpa using h
  · rw [read_skips_handshake]
    have h := readAfterStart_data (p := [65]) none [0] [] (by decide) (by decide) (by decide)
    simpa using h
  · rw [next_skips_handshake]
    have h := nextAfterStart_stop none hcf rfl
    simpa using h
  · rw [next_skips_handshake]
    have h := nextAfterStart_data (p := [65]) none [] (by decide) (by decide)
    simpa using h

/-- C3 (amended): parsing a STOP control frame ends only the call that
parsed it (pull mode returns 0 without touching the buffer, sequence mode
returns no item); no stopped state is recorded, so subsequent calls simply
parse whatever bytes remain, and they keep returning 0-like results only
when the source is exhausted — in which case pull mode reports the
underlying end-of-input error rather than 0 and sequence mode returns no
item. -/
theorem c3_stop_ends_call_only (ct : Option String) (buf s s' : List Nat)
    (cf : ControlFrame) (h : read_control_frame s = .ok (cf, s'))
    (hstop : cf.control_type = CONTROL_STOP) :
    Decoder.read ⟨be32 0 ++ s, ct, true⟩ buf = (.ok 0, buf, ⟨s', ct, true⟩) ∧
    Decoder.next ⟨be32 0 ++ s, ct, true⟩ = (none, ⟨s', ct, true⟩) ∧
    Decoder.read ⟨[], ct, true⟩ buf = (.error .eof, buf, ⟨[], ct, true⟩) ∧
    Decoder.next ⟨[], ct, true⟩ = (none, ⟨[], ct, true⟩) := by
  refine ⟨?_, ?_, ?_, ?_⟩
  · rw [read_skips_handshake]
    exact readAfterStart_control_ok ct buf h
  · rw [next_skips_handshake]
    exact nextAfterStart_stop ct h hstop
  · rw [read_skips_handshake]
    exact readAfterStart_eof ct buf
  · rw [next_skips_handshake]
    exact nextAfterStart_eof ct

/-- C3 witness: a bare STOP control frame ends the call in both modes, and
on the then-exhausted source the next pull call reports the end-of-input
error while sequence mode stays ended. -/
theorem c3_stop_ends_call_only_witness :
    Decoder.read ⟨be32 0 ++ (be32 4 ++ be32 CONTROL_STOP), none, true⟩ [5]
      = (.ok 0, [5], ⟨[], none, true⟩) ∧
    Decoder.next ⟨be32 0 ++ (be32 4 ++ be32 CONTROL_STOP), none, true⟩
      = (none, ⟨[], none, true⟩) ∧
    Decoder.read ⟨[], none, true⟩ [5] = (.error .eof, [5], ⟨[], none, true⟩) ∧
    Decoder.next ⟨[], none, true⟩ = (none, ⟨[], none, true⟩) := by
  have hstop : read_control_frame (be32 4 ++ be32 CONTROL_STOP)
      = .ok ({ control_type := CONTROL_STOP, content_types := some [] }, []) := by
    simpa using read_control_frame_noFields (L := 4) (t := CONTROL_STOP) []
      (by decide) (by decide) (by decide)
  exact c3_stop_ends_call_only none [5] _ [] _ hstop rfl
